import Mathlib

/-!
Shallow embedding of datatables-query (src/index.js).

The library compiles a DataTables request descriptor into a MongoDB-style
find/sort/select triple and runs two counts and one fetch against a store
model, assembling a response envelope.  JavaScript values that the source
inspects are embedded explicitly:

* `JsAtom` models the scalar JS values the descriptor fields can hold
  (booleans, integral numbers, NaN, strings, undefined, null).  Numbers are
  restricted to the integral fragment: every numeric literal the claims
  exercise is an integer, and `Number(...)` / `JSON.parse(...)` are modelled
  on that fragment.
* JS objects used as filters are association lists (`Obj`); property read,
  write and delete (`getKey`, `setKey`, `delKey`) keep insertion order and
  overwrite in place, as JS property assignment does.
* `RegexVal` records the two `new RegExp(..., 'i')` constructions of
  `buildFindParameters`; `RegexVal.matchesB` is the semantic model of
  `.test` for those two pattern families (a case-insensitive literal
  substring probe, and a conjunction of `(?=.*?w)` lookaheads), faithful for
  newline-free subjects and metacharacter-free (escaped-literal) words.
* `buildFindParametersM` returns the compiled filter together with the value
  of `params.find` after the call: line 72 of the source binds
  `findParameters` to the very object `params.find`, so every later property
  write mutates the caller's filter, and `run` observes that object again at
  `Model.countDocuments(params.find || {})`.
-/

namespace DTQ

/-- Scalar JavaScript values as the source inspects them (integral-number
fragment; fractional numbers never arise in the claims). -/
inductive JsAtom where
  | bool (b : Bool)
  | num (i : Int)
  | nan
  | str (s : String)
  | undef
  | null
deriving DecidableEq, Repr

/-- JS `String(x)` on a `JsAtom` (used by the `JSON.parse` model: JS coerces
the argument of `JSON.parse` to a string first). -/
def jsToString : JsAtom → String
  | .bool b => if b then "true" else "false"
  | .num i => toString i
  | .nan => "NaN"
  | .str s => s
  | .undef => "undefined"
  | .null => "null"

/-- JS truthiness of a scalar. -/
def atomTruthy : JsAtom → Bool
  | .bool b => b
  | .num i => i != 0
  | .nan => false
  | .str s => s != ""
  | .undef => false
  | .null => false

/-- Digit run to a natural number. -/
def natOfDigits (cs : List Char) : Nat :=
  cs.foldl (fun a c => a * 10 + (c.toNat - '0'.toNat)) 0

/-- Model of JS `Number(s)` for a string, on the integral fragment: the empty
string coerces to `0`, an optionally signed digit run to that integer, and
anything else to NaN (`none`).  Whitespace trimming and non-integral numeric
syntax are outside the model. -/
def parseNumberStr (s : String) : Option Int :=
  match s.data with
  | [] => some 0
  | '+' :: rest => if rest ≠ [] ∧ rest.all Char.isDigit then some (natOfDigits rest : Int) else none
  | '-' :: rest => if rest ≠ [] ∧ rest.all Char.isDigit then some (-(natOfDigits rest : Int)) else none
  | cs => if cs.all Char.isDigit then some (natOfDigits cs : Int) else none

/-- Model of JS `Number(x)`: `none` is NaN.  `Number(null) = 0` and
`Number(true) = 1` are JS coercion facts the source relies on. -/
def jsToNumber : JsAtom → Option Int
  | .bool b => some (if b then 1 else 0)
  | .num i => some i
  | .nan => none
  | .str s => parseNumberStr s
  | .undef => none
  | .null => some 0

/-- Source line 31, `isNaNorUndefined`: true when any argument is NaN,
undefined or null.  All call sites pass `Number(...)`-coerced values, on
which the three conditions collapse to "the coercion produced NaN"
(`Number` never yields undefined or null), so the model takes the coerced
`Option Int` values directly. -/
def isNaNorUndefined (args : List (Option Int)) : Bool :=
  args.any (fun a => a.isNone)

/-- The sixteen characters of `_re_escape_regex` (source line 4). -/
def reSpecials : List Char :=
  ['/', '.', '*', '+', '?', '|', '(', ')', '[', ']', '\x7b', '\x7d', '\\', '$', '^', '-']

/-- Source line 40, `escapeRegex`: every regex metacharacter is prefixed with
a backslash (the global replace maps each single metacharacter to
backslash-then-character); all other characters pass through. -/
def escapeRegex (v : String) : String :=
  String.mk (v.data.foldr (fun c acc => if reSpecials.contains c then '\\' :: c :: acc else c :: acc) [])

/-- Split a character list at its first double quote: `some (before, after)`
with the quote itself dropped, or `none` when no quote occurs.  This is how
the greedy alternative `"[^"]+"` of the tokenizer regex finds its closing
quote. -/
def splitAtQuote : List Char → Option (List Char × List Char)
  | [] => none
  | c :: r =>
    if c = '"' then some ([], r)
    else
      match splitAtQuote r with
      | some (a, b) => some (c :: a, b)
      | none => none

/-- Model of `searchText.match(/"[^"]+"|[^ ]+/g)` (source line 81): from each
position, prefer a quoted run `"[^"]+"` (which needs a later quote with at
least one character in between), otherwise take a maximal run of non-space
characters, otherwise skip the space.  Structural on a fuel argument so that
concrete evaluations reduce in the kernel; the callers pass fuel larger than
the list length, which one character of progress per step makes sufficient. -/
def smartTokens : Nat → List Char → List (List Char)
  | 0, _ => []
  | _, [] => []
  | fuel + 1, c :: rest =>
    if c = '"' then
      match splitAtQuote rest with
      | some (mid, tail) =>
        if mid.isEmpty then
          (c :: rest.takeWhile (fun x => x != ' ')) :: smartTokens fuel (rest.dropWhile (fun x => x != ' '))
        else
          ('"' :: (mid ++ ['"'])) :: smartTokens fuel tail
      | none =>
        (c :: rest.takeWhile (fun x => x != ' ')) :: smartTokens fuel (rest.dropWhile (fun x => x != ' '))
    else if c = ' ' then smartTokens fuel rest
    else (c :: rest.takeWhile (fun x => x != ' ')) :: smartTokens fuel (rest.dropWhile (fun x => x != ' '))

/-- Model of `word.replace('"', '')`: JS `replace` with a string pattern
removes only the first occurrence. -/
def removeFirstQuote : List Char → List Char
  | [] => []
  | c :: r => if c = '"' then r else c :: removeFirstQuote r

/-- The per-word step of source lines 82-87: when the word starts with a
quote, `word.match(/^"(.*)"$/)` strips an enclosing quote pair (the dot does
not cross newlines, hence the newline guard), and in every case the first
remaining quote is removed by `replace`. -/
def stripQuotes (w : List Char) : List Char :=
  if w.head? = some '"' then
    if 2 ≤ w.length ∧ w.getLast? = some '"' ∧ (w.drop 1).dropLast.all (fun c => c != '\n') then
      removeFirstQuote ((w.drop 1).dropLast)
    else removeFirstQuote w
  else removeFirstQuote w

/-- Source lines 81-87: the smart-mode word list of an escaped search text.
The `|| ['']` fallback of line 81 yields a single empty word when the match
finds no token at all. -/
def smartWords (s : String) : List String :=
  let raw := smartTokens (s.data.length + 1) s.data
  let raw' := if raw.isEmpty then [[]] else raw
  raw'.map (fun w => String.mk (stripQuotes w))

/-- The two `new RegExp(..., 'i')` values built by `buildFindParameters`:
the plain case-insensitive pattern over the escaped search text (line 91),
and the smart-mode lookahead conjunction over the word list (line 89). -/
inductive RegexVal where
  | plain (source : String)
  | smart (words : List String)
deriving DecidableEq, Repr

/-- The source text handed to `new RegExp`: line 89 builds
`^(?=.*?w1)(?=.*?w2)....*$` by joining the words with `)(?=.*?`. -/
def RegexVal.sourceStr : RegexVal → String
  | .plain t => t
  | .smart ws => "^(?=.*?" ++ String.intercalate ")(?=.*?" ws ++ ").*$"

/-- Lower-cased character list of a string (the `i` flag of both regexes). -/
def lcChars (s : String) : List Char :=
  s.data.map Char.toLower

/-- Boolean prefix test on character lists. -/
def prefixB : List Char → List Char → Bool
  | [], _ => true
  | _ :: _, [] => false
  | a :: as, b :: bs => a == b && prefixB as bs

/-- Boolean contiguous-sublist test on character lists. -/
def infixB : List Char → List Char → Bool
  | n, [] => n.isEmpty
  | n, c :: t => prefixB n (c :: t) || infixB n t

/-- Case-insensitive substring probe: the meaning of testing the pattern `w`
(with flag `i`) somewhere inside a subject. -/
def substrCIb (needle hay : String) : Bool :=
  infixB (lcChars needle) (lcChars hay)

/-- Semantic model of `regex.test(subject)` for the two pattern families the
source constructs.  A plain pattern holds exactly when the (escaped-literal)
text occurs as a case-insensitive substring; the smart pattern
`^(?=.*?w1)...(?=.*?wn).*$` holds exactly when every word occurs somewhere,
in any order.  Faithful for newline-free subjects and for words that denote
themselves (escaped text of a metacharacter-free search value). -/
def RegexVal.matchesB : RegexVal → String → Bool
  | .plain t, s => substrCIb t s
  | .smart ws, s => ws.all (fun w => substrCIb w s)

/-- A value stored under a key of a filter object: a scalar matcher supplied
by the caller, one of the compiled regex matchers, or an array of
sub-objects (the shape of the values of `$or` and `$and`). -/
inductive FVal where
  | prim (a : JsAtom)
  | regex (r : RegexVal)
  | sub (objs : List (List (String × FVal)))

/-- A JS object used as a filter: an association list in insertion order
(JS objects hold each key once; the operations below treat the first
occurrence as the property). -/
abbrev Obj := List (String × FVal)

/-- JS property read `o[key]`. -/
def getKey {α : Type} : List (String × α) → String → Option α
  | [], _ => none
  | (k, v) :: r, key => if k = key then some v else getKey r key

/-- JS property write `o[key] = v`: overwrite in place when the key exists
(keeping its position), otherwise append the new property. -/
def setKey {α : Type} : List (String × α) → String → α → List (String × α)
  | [], key, v => [(key, v)]
  | (k, w) :: r, key, v => if k = key then (key, v) :: r else (k, w) :: setKey r key v

/-- JS `delete o[key]`. -/
def delKey {α : Type} (o : List (String × α)) (key : String) : List (String × α) :=
  o.filter (fun kv => kv.1 != key)

/-- JS truthiness of a filter value: objects, arrays and regexes are truthy,
scalars by their own truthiness. -/
def fvalTruthy : FVal → Bool
  | .prim a => atomTruthy a
  | .regex _ => true
  | .sub _ => true

/-- A column descriptor as the source reads it: `data` (`none` models an
absent field, which JS stringifies to the key `"undefined"` and treats as
falsy), and the raw `searchable` / `orderable` flags. -/
structure Column where
  data : Option String
  searchable : JsAtom
  orderable : JsAtom
deriving DecidableEq, Repr

/-- The string a column's `data` contributes as an object key (JS coerces an
undefined key to the string `"undefined"`). -/
def dataStr (c : Column) : String :=
  match c.data with
  | some s => s
  | none => "undefined"

/-- Whether `column.data` is falsy (`!sortField` on source line 148):
undefined or the empty string. -/
def dataFalsy (c : Column) : Bool :=
  match c.data with
  | some s => s == ""
  | none => true

/-- The `columns` field of the descriptor: absent (or another falsy value),
present but not an array, or an array of column descriptors.  The falsy
guard of `buildFindParameters` distinguishes the first case; the
`Array.isArray` guards of the sort and select compilers distinguish the
third. -/
inductive ColumnsField where
  | undef
  | notArr
  | arr (cols : List Column)

/-- Results of the `JSON.parse` model on the fragment the flags can take:
booleans, null, integers and simple quoted strings. -/
inductive JsonLite where
  | jbool (b : Bool)
  | jnull
  | jint (i : Int)
  | jstr (s : String)
deriving DecidableEq, Repr

/-- JSON integer body: `0`, or a digit run not starting with `0`. -/
def jsonNatVal : List Char → Option Nat
  | [] => none
  | ['0'] => some 0
  | c :: cs =>
    if c ≠ '0' ∧ (c :: cs).all Char.isDigit then some (natOfDigits (c :: cs)) else none

/-- Model of `JSON.parse(s)` on the fragment relevant to the flags: the
literals `true`, `false`, `null`, JSON integers, and quoted strings without
escapes; everything else (for example `"abc"` or `"undefined"`) raises a
SyntaxError, modelled as `Except.error`.  Fractional numbers and nested
JSON are outside the model. -/
def jsonParseLite (s : String) : Except Unit JsonLite :=
  if s = "true" then .ok (.jbool true)
  else if s = "false" then .ok (.jbool false)
  else if s = "null" then .ok .jnull
  else
    match s.data with
    | '"' :: rest =>
      if rest ≠ [] ∧ rest.getLast? = some '"' ∧ rest.dropLast.all (fun c => c != '"' && c != '\\') then
        .ok (.jstr (String.mk rest.dropLast))
      else .error ()
    | '-' :: rest =>
      match jsonNatVal rest with
      | some n => .ok (.jint (-(n : Int)))
      | none => .error ()
    | cs =>
      match jsonNatVal cs with
      | some n => .ok (.jint (n : Int))
      | none => .error ()

/-- JS truthiness of a parsed JSON value (the `filter` callback of source
line 19 returns `JSON.parse(column.searchable)` itself, so membership is
decided by truthiness, not by strict equality with `true`). -/
def jsonTruthy : JsonLite → Bool
  | .jbool b => b
  | .jnull => false
  | .jint i => i != 0
  | .jstr s => s != ""

/-- The searchable flag of one column after `JSON.parse`, reduced to its
truthiness; a flag that does not parse is a propagating error. -/
def searchableFlag (c : Column) : Except Unit Bool :=
  match jsonParseLite (jsToString c.searchable) with
  | .ok j => .ok (jsonTruthy j)
  | .error e => .error e

/-- Source line 18, `getSearchableFields`, on an actual column array: keep
the columns whose flag is truthy, in order, and take their `data` keys.  The
`filter` callback runs left to right, so the first unparseable flag aborts
the whole extraction. -/
def getSearchableFieldsList : List Column → Except Unit (List String)
  | [] => .ok []
  | c :: rest =>
    match searchableFlag c with
    | .error e => .error e
    | .ok b =>
      match getSearchableFieldsList rest with
      | .error e => .error e
      | .ok tl => .ok (if b then dataStr c :: tl else tl)

/-- Source line 18 on the raw `columns` field: calling `.filter` on a value
that is not an array throws, modelled as `Except.error`. -/
def getSearchableFields : ColumnsField → Except Unit (List String)
  | .arr cols => getSearchableFieldsList cols
  | _ => .error ()

/-- One directive of the `order` array. -/
structure OrderEntry where
  column : JsAtom
  dir : JsAtom
deriving DecidableEq, Repr

/-- The `search` object: `value` is `none` when absent (the guard of line 67
treats every falsy non-empty-string value this way), and `smart` is the
truthiness of `params.search.smart`. -/
structure SearchObj where
  value : Option String
  smart : Bool
deriving DecidableEq, Repr

/-- The request descriptor, with exactly the fields src/index.js reads.
`order = none` covers both an absent `order` and a non-array one (the
`Array.isArray` guard of line 133 rejects both the same way). -/
structure Params where
  draw : JsAtom
  start : JsAtom
  length : JsAtom
  columns : ColumnsField
  order : Option (List OrderEntry)
  search : Option SearchObj
  find : Option Obj
  populate : Option String

/-- The regex value of source lines 80-92: smart mode tokenizes the escaped
search text and builds the lookahead conjunction, otherwise the escaped text
itself is the pattern. -/
def searchRegexOf (smart : Bool) (searchText : String) : RegexVal :=
  if smart then .smart (smartWords searchText) else .plain searchText

/-- The `searchOrArray` built by the forEach of source lines 101-105: one
single-field object per searchable field, in order. -/
def searchBranches (fields : List String) (r : RegexVal) : List Obj :=
  fields.map (fun fl => [(fl, FVal.regex r)])

/-- Source line 66, `buildFindParameters`, together with the value of
`params.find` after the call (second component).  Line 72 binds
`findParameters` to the caller's `find` object itself when it is present, so
every property write below mutates that object: whenever a search
constraint is attached, the caller's `find` afterwards equals the returned
filter.  The result is `Except` for the exception `getSearchableFields` can
throw, and `Option` for the `null` returns of the guard. -/
def buildFindParametersM (p : Params) : Except Unit (Option Obj) × Option Obj :=
  match p.columns with
  | .undef => (.ok none, p.find)
  | _ =>
    match p.search with
    | none => (.ok none, p.find)
    | some sch =>
      match sch.value with
      | none => (.ok none, p.find)
      | some v =>
        let searchText := escapeRegex v
        let findParameters := p.find.getD []
        if searchText = "" then (.ok (some findParameters), p.find)
        else
          let searchRegex := searchRegexOf sch.smart searchText
          match getSearchableFields p.columns with
          | .error e => (.error e, p.find)
          | .ok searchableFields =>
            match searchableFields with
            | [f] =>
              let r := setKey findParameters f (.regex searchRegex)
              (.ok (some r), if p.find.isSome then some r else p.find)
            | fields =>
              let searchOrArray : List Obj := searchBranches fields searchRegex
              let r :=
                match getKey findParameters "$or" with
                | some prevOr =>
                  if fvalTruthy prevOr then
                    setKey (delKey findParameters "$or") "$and"
                      (.sub [[("$or", .sub searchOrArray)], [("$or", prevOr)]])
                  else setKey findParameters "$or" (.sub searchOrArray)
                | none => setKey findParameters "$or" (.sub searchOrArray)
              (.ok (some r), if p.find.isSome then some r else p.find)

/-- The value `buildFindParameters` returns to its caller. -/
def buildFindParameters (p : Params) : Except Unit (Option Obj) :=
  (buildFindParametersM p).1

/-- A MongoDB ordering expression: one field mapped to `1` or `-1`. -/
abbrev SortObj := List (String × Int)

/-- Source line 132, `buildSortParameters`.  `Except.error` models the
TypeError thrown on line 143 when `Number(order[0].column)` is a negative
integer: it passes the `isNaN` and `>= length` checks, `columns[i]` is then
`undefined`, and reading `.orderable` throws.  (Fractional indices, which
misbehave the same way, are outside the integral number model.)  All other
failures return `null`, modelled as `.ok none`. -/
def buildSortParameters (p : Params) : Except Unit (Option SortObj) :=
  match p.order with
  | none => .ok none
  | some [] => .ok none
  | some (o :: _) =>
    match jsToNumber o.column with
    | none => .ok none
    | some i =>
      match p.columns with
      | .arr cols =>
        if (cols.length : Int) ≤ i then .ok none
        else if i < 0 then .error ()
        else
          match cols.get? i.toNat with
          | none => .error ()
          | some c =>
            if c.orderable = .str "false" then .ok none
            else if dataFalsy c then .ok none
            else .ok (some [(dataStr c, if o.dir = .str "asc" then (1 : Int) else -1)])
      | _ => .ok none

/-- A MongoDB field-selection expression. -/
abbrev SelectObj := List (String × Int)

/-- Source line 163, `buildSelectParameters`: `null` unless `columns` is an
array, otherwise every column's `data` key mapped to `1` by the reduce. -/
def buildSelectParameters (p : Params) : Option SelectObj :=
  match p.columns with
  | .arr cols => some (cols.foldl (fun acc c => setKey acc (dataStr c) 1) [])
  | _ => none

/-- The store handle `run` is given: a count per filter, and a fetch taking
the filter, the selection, `limit`, `skip`, the sort expression and the
(truthy) `populate` hint, in the order the query chain of lines 226-236
passes them.  Both are fallible, modelling promise rejection. -/
structure StoreModel (Doc Err : Type) where
  count : Obj → Except Err Nat
  findDocs : Obj → SelectObj → Int → Int → SortObj → Option String → Except Err (List Doc)

/-- The fulfilled response envelope of source lines 239-244. -/
structure Envelope (Doc : Type) where
  draw : Int
  recordsTotal : Nat
  recordsFiltered : Nat
  data : List Doc
deriving Repr

/-- A rejection value: `new Error(message)` carries only a message (no
wrapped cause), while the catch handler of line 246 wraps the underlying
store error as `{ error: err }`. -/
inductive JsError (Err : Type) where
  | errMsg (message : String)
  | wrapped (cause : Err)
deriving Repr

/-- What a call of the returned `run` function can produce: a synchronous
exception (the builders run on lines 190-195 before the promise executor, so
their throws propagate to the caller), a rejection, or fulfillment. -/
inductive RunOutcome (Doc Err : Type) where
  | thrown
  | rejected (e : JsError Err)
  | fulfilled (env : Envelope Doc)
deriving Repr

/-- The message of the rejection on source lines 203-207. -/
def missingParamsMsg : String :=
  "Some parameters are missing or in a wrong state. Could be any of draw, start or length"

/-- The message of the rejection on source line 212. -/
def invalidQueryMsg : String :=
  "Invalid findParameters or sortParameters or selectParameters"

/-- The `populate` argument the fetch receives: forwarded only when truthy
(line 232). -/
def popArg (p : Params) : Option String :=
  match p.populate with
  | some s => if s = "" then none else some s
  | none => none

/-- Source line 180, `run`: coerce the numerics, run the three builders (in
source order, so a builder exception propagates before anything else), gate
on NaN and on null builder results, then sequence the two counts and the
fetch.  The first count receives `params.find || {}` as it stands after the
builders ran; because `buildFindParameters` mutates a present `find` in
place, that is the post-compilation object `buildFindParametersM` reports. -/
def runQuery {Doc Err : Type} (store : StoreModel Doc Err) (p : Params) : RunOutcome Doc Err :=
  let draw := jsToNumber p.draw
  let start := jsToNumber p.start
  let length := jsToNumber p.length
  match buildFindParametersM p with
  | (.error _, _) => .thrown
  | (.ok findOpt, postFind) =>
    match buildSortParameters p with
    | .error _ => .thrown
    | .ok sortOpt =>
      let selectOpt := buildSelectParameters p
      match draw, start, length with
      | some d, some st, some len =>
        match findOpt, sortOpt, selectOpt with
        | some f, some srt, some sel =>
          match store.count (postFind.getD []) with
          | .error e => .rejected (.wrapped e)
          | .ok total =>
            match store.count f with
            | .error e => .rejected (.wrapped e)
            | .ok filtered =>
              match store.findDocs f sel len st srt (popArg p) with
              | .error e => .rejected (.wrapped e)
              | .ok docs => .fulfilled ⟨d, total, filtered, docs⟩
        | _, _, _ => .rejected (.errMsg invalidQueryMsg)
      | _, _, _ => .rejected (.errMsg missingParamsMsg)

/-- Truthiness of one column's parsed searchable flag, `false` when the flag
does not parse (used only to state which columns the extractor keeps). -/
def truthyFlag (c : Column) : Bool :=
  match jsonParseLite (jsToString c.searchable) with
  | .ok j => jsonTruthy j
  | .error _ => false

/-- Whether an `Except` computation succeeded. -/
def isOkB {ε α : Type} : Except ε α → Bool
  | .ok _ => true
  | .error _ => false

/-- Whether a scalar is a boolean or its string encoding, the shapes the
specification calls boolean-like. -/
def booleanLikeB : JsAtom → Bool
  | .bool _ => true
  | .str s => s == "true" || s == "false"
  | _ => false

/-- Whether one string occurs inside another (used to state which parameter
names an error message mentions). -/
def mentionsStr (msg nm : String) : Bool :=
  infixB nm.data msg.data

/-- A concrete store model for closed instances: the count of a filter is
its number of keys (enough to tell two filters apart), and every fetch
succeeds with an empty page. -/
def demoStore : StoreModel Nat Nat :=
  ⟨fun o => .ok o.length, fun _ _ _ _ _ _ => .ok []⟩

/-- A column with the given `data` key and `searchable` flag, orderable. -/
def sCol (d flag : String) : Column :=
  ⟨some d, .str flag, .str "true"⟩

/-- Valid pagination, one searchable column, a search term, but no `order`
at all: the sort compiler yields its absent result. -/
def sampleC1 : Params :=
  ⟨.num 1, .num 0, .num 10, .arr [sCol "name" "true"], none,
   some ⟨some "jo", false⟩, none, none⟩

/-- Non-empty search text and a single column whose `searchable` is the
string `"false"`: no searchable fields. -/
def sampleC2 : Params :=
  ⟨.num 1, .num 0, .num 10, .arr [sCol "a" "false"], none,
   some ⟨some "x", false⟩, none, none⟩

/-- A caller-supplied base filter on `age` plus one searchable column. -/
def sampleC3 : Params :=
  ⟨.num 1, .num 0, .num 10, .arr [sCol "name" "true"], none,
   some ⟨some "jo", false⟩, some [("age", .prim (.num 5))], none⟩

/-- Two searchable columns, no base filter. -/
def sampleC4 : Params :=
  ⟨.num 1, .num 0, .num 10, .arr [sCol "a" "true", sCol "b" "true"], none,
   some ⟨some "x", false⟩, none, none⟩

/-- Two searchable columns and a base filter that already carries `$or`. -/
def sampleC4b : Params :=
  ⟨.num 1, .num 0, .num 10, .arr [sCol "a" "true", sCol "b" "true"], none,
   some ⟨some "x", false⟩, some [("$or", .sub [[("z", .prim (.num 1))]])], none⟩

/-- A sort directive whose column index coerces to `-1`: in bounds of no
array, yet below the upper-bound check of line 139. -/
def sampleC5 : Params :=
  ⟨.num 1, .num 0, .num 10, .arr [sCol "a" "true"], some [⟨.str "-1", .str "asc"⟩],
   some ⟨some "", false⟩, none, none⟩

/-- A well-formed sort directive on column 0, ascending. -/
def sampleC5w : Params :=
  ⟨.num 1, .num 0, .num 10, .arr [sCol "name" "true"], some [⟨.str "0", .str "asc"⟩],
   some ⟨some "jo", false⟩, none, none⟩

/-- The smart-search example of the specification: a quoted phrase plus a
free word, one searchable column. -/
def sampleC6 : Params :=
  ⟨.num 1, .num 0, .num 10, .arr [sCol "name" "true"], none,
   some ⟨some "\"John Doe\" Jane", true⟩, none, none⟩

/-- `draw` is the non-numeric string `"abc"`; `start` and `length` are valid. -/
def sampleC7 : Params :=
  ⟨.str "abc", .num 0, .num 10, .arr [sCol "name" "true"], some [⟨.str "0", .str "asc"⟩],
   some ⟨some "jo", false⟩, none, none⟩

/-- A present (empty) base filter, a search term, one searchable column and
a valid sort: every store operation runs. -/
def sampleC8 : Params :=
  ⟨.num 1, .num 0, .num 10, .arr [sCol "name" "true"], some [⟨.str "0", .str "asc"⟩],
   some ⟨some "jo", false⟩, some [], none⟩

/-- Like `sampleC8` but with `find` absent. -/
def sampleC8w : Params :=
  ⟨.num 1, .num 0, .num 10, .arr [sCol "name" "true"], some [⟨.str "0", .str "asc"⟩],
   some ⟨some "jo", false⟩, none, none⟩

/-- One column whose `searchable` is `"1"`: parseable JSON, truthy, yet not
a boolean or a string-encoded boolean. -/
def sampleC9cols : List Column :=
  [⟨some "a", .str "1", .str "true"⟩]

/-- One column whose `searchable` is the unparseable string `"abc"`. -/
def sampleC9bad : Params :=
  ⟨.num 1, .num 0, .num 10, .arr [⟨some "a", .str "abc", .str "true"⟩],
   some [⟨.str "0", .str "asc"⟩], some ⟨some "x", false⟩, none, none⟩

/-- One searchable column named `name`, and a base filter that already
constrains the same `name` field. -/
def sampleC10 : Params :=
  ⟨.num 1, .num 0, .num 10, .arr [sCol "name" "true"], none,
   some ⟨some "jo", false⟩, some [("name", .prim (.str "exact"))], none⟩

/-- Writing a key makes it readable: the JS property write/read round trip. -/
theorem getKey_setKey {α : Type} (o : List (String × α)) (k : String) (v : α) :
    getKey (setKey o k v) k = some v := by
  induction o with
  | nil => simp [setKey, getKey]
  | cons kv r ih =>
    obtain ⟨k1, w⟩ := kv
    by_cases h : k1 = k
    · simp [setKey, getKey, h]
    · simp [setKey, getKey, h, ih]

/-- Claim C1, counterexample.  A descriptor with no `order` at all: the sort
compiler yields its absent result (`null`) while the filter and projection
compilers both succeed, yet `run` rejects with the malformed-query-parameters
error, because the guard of source line 210 (`!sortParameters`) treats the
absent sort exactly like an invalid filter or projection. -/
theorem C1_counterexample :
    buildSortParameters sampleC1 = .ok none ∧
    buildFindParameters sampleC1 = .ok (some [("name", FVal.regex (.plain "jo"))]) ∧
    buildSelectParameters sampleC1 = some [("name", 1)] ∧
    runQuery demoStore sampleC1 = .rejected (.errMsg invalidQueryMsg) :=
  ⟨rfl, rfl, rfl, rfl⟩

/-- Claim C1, amended: whenever the sort compiler yields its absent result
(`null`) — even though the filter and projection compilers succeed and the
pagination numerics are valid — the orchestrator does fail with the
malformed-query-parameters error, for every store: the code draws no
distinction between an absent sort and an invalid one. -/
theorem C1_amended {Doc Err : Type} (store : StoreModel Doc Err) (p : Params)
    (f : Obj) (post : Option Obj) (sel : SelectObj) (d st len : Int)
    (hfind : buildFindParametersM p = (.ok (some f), post))
    (hsort : buildSortParameters p = .ok none)
    (_hsel : buildSelectParameters p = some sel)
    (hd : jsToNumber p.draw = some d)
    (hst : jsToNumber p.start = some st)
    (hlen : jsToNumber p.length = some len) :
    runQuery store p = .rejected (.errMsg invalidQueryMsg) := by
  simp [runQuery, hfind, hsort, hd, hst, hlen]

/-- Claim C1, witness: the amended theorem applied to `sampleC1`. -/
theorem C1_amended_witness :
    runQuery demoStore sampleC1 = .rejected (.errMsg invalidQueryMsg) :=
  C1_amended demoStore sampleC1 [("name", FVal.regex (.plain "jo"))] none [("name", 1)]
    1 0 10 rfl rfl rfl rfl rfl rfl

/-- Claim C2, counterexample.  Non-empty search text, zero searchable
columns, no base filter: the compiled filter is not the empty filter — the
assignment of source line 112 runs with an empty `searchOrArray`, attaching
`$or: []`. -/
theorem C2_counterexample :
    buildFindParameters sampleC2 = .ok (some [("$or", FVal.sub [])]) ∧
    sampleC2.find = none ∧
    buildFindParameters sampleC2 ≠ .ok (some []) := by
  refine ⟨rfl, rfl, ?_⟩
  rw [show buildFindParameters sampleC2 = .ok (some [("$or", FVal.sub [])]) from rfl]
  simp

/-- Claim C2, amended: with non-empty search text and zero searchable
fields, the compiled filter is the base filter with an empty `$or`
disjunction attached (and when the base filter already carried a truthy
`$or`, that previous disjunction is conjoined with the empty one under
`$and`); the search term itself still constrains nothing. -/
theorem C2_amended (p : Params) (cols : List Column) (v : String) (sm : Bool)
    (prevOr : FVal)
    (hcols : p.columns = .arr cols)
    (hsearch : p.search = some ⟨some v, sm⟩)
    (hv : escapeRegex v ≠ "")
    (hfields : getSearchableFields (.arr cols) = .ok []) :
    (getKey (p.find.getD []) "$or" = none →
      buildFindParameters p = .ok (some (setKey (p.find.getD []) "$or" (.sub [])))) ∧
    (getKey (p.find.getD []) "$or" = some prevOr → fvalTruthy prevOr = true →
      buildFindParameters p
        = .ok (some (setKey (delKey (p.find.getD []) "$or") "$and"
            (.sub [[("$or", .sub [])], [("$or", prevOr)]])))) := by
  constructor
  · intro hor
    simp [buildFindParameters, buildFindParametersM, hcols, hsearch, hv, hfields, hor,
      searchBranches]
  · intro hor htr
    simp [buildFindParameters, buildFindParametersM, hcols, hsearch, hv, hfields, hor, htr,
      searchBranches]

/-- Claim C2, witness: the amended theorem applied to `sampleC2`. -/
theorem C2_amended_witness :
    buildFindParameters sampleC2 = .ok (some [("$or", FVal.sub [])]) :=
  (C2_amended sampleC2 [sCol "a" "false"] "x" false (FVal.sub []) rfl rfl
    (by decide) rfl).1 rfl

/-- Claim C3, counterexample.  The caller supplies `find = {age: 5}` and one
searchable column `name`; after `buildFindParameters` the caller's `find`
object carries the extra `name` matcher: source line 72 binds the compiled
filter to the caller's object itself, and line 97 writes into it. -/
theorem C3_counterexample :
    (buildFindParametersM sampleC3).2
      = some [("age", FVal.prim (.num 5)), ("name", FVal.regex (.plain "jo"))] ∧
    sampleC3.find = some [("age", FVal.prim (.num 5))] ∧
    (buildFindParametersM sampleC3).2 ≠ sampleC3.find := by
  refine ⟨rfl, rfl, ?_⟩
  rw [show (buildFindParametersM sampleC3).2
      = some [("age", FVal.prim (.num 5)), ("name", FVal.regex (.plain "jo"))] from rfl,
    show sampleC3.find = some [("age", FVal.prim (.num 5))] from rfl]
  simp

/-- Claim C3, amended: `buildFindParameters` mutates a present caller
`find` in place.  Whenever `find` is present, the guard passes, the escaped
search text is non-empty and searchable-field extraction succeeds, the
caller's `find` after the call is the very compiled filter (the same
object); only with empty search text is the descriptor left untouched. -/
theorem C3_amended (p : Params) (b : Obj) (cols : List Column) (v : String) (sm : Bool)
    (fields : List String)
    (hfind : p.find = some b)
    (hcols : p.columns = .arr cols)
    (hsearch : p.search = some ⟨some v, sm⟩)
    (hfields : getSearchableFields (.arr cols) = .ok fields) :
    (escapeRegex v ≠ "" →
      (buildFindParametersM p).1 = .ok ((buildFindParametersM p).2) ∧
      ((buildFindParametersM p).2).isSome = true) ∧
    (escapeRegex v = "" → (buildFindParametersM p).2 = p.find) := by
  constructor
  · intro hv
    rcases fields with _ | ⟨f, _ | ⟨g, rest⟩⟩
    · cases hg : getKey b "$or" with
      | none => simp [buildFindParametersM, hcols, hsearch, hv, hfields, hfind, hg]
      | some prevOr =>
        cases htr : fvalTruthy prevOr <;>
          simp [buildFindParametersM, hcols, hsearch, hv, hfields, hfind, hg, htr]
    · simp [buildFindParametersM, hcols, hsearch, hv, hfields, hfind]
    · cases hg : getKey b "$or" with
      | none => simp [buildFindParametersM, hcols, hsearch, hv, hfields, hfind, hg]
      | some prevOr =>
        cases htr : fvalTruthy prevOr <;>
          simp [buildFindParametersM, hcols, hsearch, hv, hfields, hfind, hg, htr]
  · intro hv
    simp [buildFindParametersM, hcols, hsearch, hv]

/-- Claim C3, witness: the amended theorem applied to `sampleC3`. -/
theorem C3_amended_witness :
    (buildFindParametersM sampleC3).1 = .ok ((buildFindParametersM sampleC3).2) ∧
    ((buildFindParametersM sampleC3).2).isSome = true :=
  (C3_amended sampleC3 [("age", .prim (.num 5))] [sCol "name" "true"] "jo" false
    ["name"] rfl rfl rfl rfl).1 (by decide)

/-- Claim C4: with non-empty search text and at least two searchable
fields, the search disjunction has exactly one `{field: pattern}` branch
per searchable field; when the base filter carries no `$or` it is attached
as the compiled filter's `$or`, and when the base filter already carries a
`$or` disjunction, the compiled filter conjoins the new and the
pre-existing disjunctions under `$and`, keeping the caller's `$or`. -/
theorem C4_or_branches (p : Params) (cols : List Column) (v : String) (sm : Bool)
    (fields : List String) (prev : List Obj)
    (hcols : p.columns = .arr cols)
    (hsearch : p.search = some ⟨some v, sm⟩)
    (hv : escapeRegex v ≠ "")
    (hfields : getSearchableFields (.arr cols) = .ok fields)
    (hlen : 2 ≤ fields.length) :
    (searchBranches fields (searchRegexOf sm (escapeRegex v))).length = fields.length ∧
    (getKey (p.find.getD []) "$or" = none →
      buildFindParameters p = .ok (some (setKey (p.find.getD []) "$or"
        (.sub (searchBranches fields (searchRegexOf sm (escapeRegex v)))))) ∧
      getKey (setKey (p.find.getD []) "$or"
          (FVal.sub (searchBranches fields (searchRegexOf sm (escapeRegex v))))) "$or"
        = some (.sub (searchBranches fields (searchRegexOf sm (escapeRegex v))))) ∧
    (getKey (p.find.getD []) "$or" = some (.sub prev) →
      buildFindParameters p = .ok (some (setKey (delKey (p.find.getD []) "$or") "$and"
        (.sub [[("$or", .sub (searchBranches fields (searchRegexOf sm (escapeRegex v))))],
               [("$or", .sub prev)]])))) := by
  refine ⟨by simp [searchBranches], ?_, ?_⟩
  · intro hor
    rcases fields with _ | ⟨f, _ | ⟨g, rest⟩⟩
    · simp at hlen
    · simp at hlen
    · refine ⟨?_, getKey_setKey _ _ _⟩
      simp [buildFindParameters, buildFindParametersM, hcols, hsearch, hv, hfields, hor]
  · intro hor
    rcases fields with _ | ⟨f, _ | ⟨g, rest⟩⟩
    · simp at hlen
    · simp at hlen
    · simp [buildFindParameters, buildFindParametersM, hcols, hsearch, hv, hfields, hor,
        fvalTruthy]

/-- Claim C4, witness: the theorem applied to `sampleC4` (no pre-existing
`$or`) and to `sampleC4b` (a pre-existing `$or`). -/
theorem C4_or_branches_witness :
    buildFindParameters sampleC4
      = .ok (some [("$or", FVal.sub [[("a", .regex (.plain "x"))],
                                     [("b", .regex (.plain "x"))]])]) ∧
    buildFindParameters sampleC4b
      = .ok (some [("$and",
          FVal.sub [[("$or", .sub [[("a", .regex (.plain "x"))], [("b", .regex (.plain "x"))]])],
                    [("$or", .sub [[("z", .prim (.num 1))]])]])]) := by
  constructor
  · exact ((C4_or_branches sampleC4 [sCol "a" "true", sCol "b" "true"] "x" false
      ["a", "b"] [] rfl rfl (by decide) rfl (by decide)).2.1 rfl).1
  · exact (C4_or_branches sampleC4b [sCol "a" "true", sCol "b" "true"] "x" false
      ["a", "b"] [[("z", .prim (.num 1))]] rfl rfl (by decide) rfl (by decide)).2.2 rfl

/-- Claim C5, counterexample.  `order[0].column` coerces to `-1`, which is
out of bounds of the one-column array, yet the sort compiler does not
return its absent result: `-1` passes the `isNaN` check and the
`>= columns.length` check, `columns[-1]` is undefined, and reading
`.orderable` on line 143 throws. -/
theorem C5_counterexample :
    buildSortParameters sampleC5 = .error () ∧
    buildSortParameters sampleC5 ≠ .ok none := by
  refine ⟨rfl, ?_⟩
  rw [show buildSortParameters sampleC5 = .error () from rfl]
  simp

/-- Claim C5, amended: the sort compiler returns absent when `order` is
missing, not a sequence or empty, when `order[0].column` coerces to NaN,
when `columns` is absent or not a sequence, when the parsed index is at or
beyond `columns.length`, when the referenced column's `orderable` is the
string `"false"`, or when its `data` is falsy; but a parsed index below
zero (out of bounds on the low side) makes the compiler throw a TypeError
instead of returning absent; otherwise it returns the single-field
ordering, ascending exactly when `dir` is the string `"asc"`. -/
theorem C5_amended (p : Params) (cols : List Column) (o : OrderEntry) (os : List OrderEntry)
    (i : Int) (c : Column) :
    (p.order = none → buildSortParameters p = .ok none) ∧
    (p.order = some [] → buildSortParameters p = .ok none) ∧
    (p.order = some (o :: os) → jsToNumber o.column = none →
      buildSortParameters p = .ok none) ∧
    (p.order = some (o :: os) → jsToNumber o.column = some i → p.columns = .undef →
      buildSortParameters p = .ok none) ∧
    (p.order = some (o :: os) → jsToNumber o.column = some i → p.columns = .notArr →
      buildSortParameters p = .ok none) ∧
    (p.order = some (o :: os) → jsToNumber o.column = some i → p.columns = .arr cols →
      (cols.length : Int) ≤ i → buildSortParameters p = .ok none) ∧
    (p.order = some (o :: os) → jsToNumber o.column = some i → p.columns = .arr cols →
      i < 0 → buildSortParameters p = .error ()) ∧
    (p.order = some (o :: os) → jsToNumber o.column = some i → p.columns = .arr cols →
      0 ≤ i → i < (cols.length : Int) → cols[i.toNat]? = some c →
      c.orderable = .str "false" → buildSortParameters p = .ok none) ∧
    (p.order = some (o :: os) → jsToNumber o.column = some i → p.columns = .arr cols →
      0 ≤ i → i < (cols.length : Int) → cols[i.toNat]? = some c →
      c.orderable ≠ .str "false" → dataFalsy c = true →
      buildSortParameters p = .ok none) ∧
    (p.order = some (o :: os) → jsToNumber o.column = some i → p.columns = .arr cols →
      0 ≤ i → i < (cols.length : Int) → cols[i.toNat]? = some c →
      c.orderable ≠ .str "false" → dataFalsy c = false →
      buildSortParameters p
        = .ok (some [(dataStr c, if o.dir = .str "asc" then (1 : Int) else -1)])) := by
  refine ⟨?_, ?_, ?_, ?_, ?_, ?_, ?_, ?_, ?_, ?_⟩
  · intro h; simp [buildSortParameters, h]
  · intro h; simp [buildSortParameters, h]
  · intro h1 h2; simp [buildSortParameters, h1, h2]
  · intro h1 h2 h3; simp [buildSortParameters, h1, h2, h3]
  · intro h1 h2 h3; simp [buildSortParameters, h1, h2, h3]
  · intro h1 h2 h3 h4
    simp only [buildSortParameters, h1, h2, h3]
    rw [if_pos h4]
  · intro h1 h2 h3 h4
    simp only [buildSortParameters, h1, h2, h3]
    rw [if_neg (by omega), if_pos h4]
  · intro h1 h2 h3 h4 h5 h6 h7
    simp only [buildSortParameters, h1, h2, h3]
    rw [if_neg (by omega), if_neg (by omega)]
    simp [h6, h7]
  · intro h1 h2 h3 h4 h5 h6 h7 h8
    simp only [buildSortParameters, h1, h2, h3]
    rw [if_neg (by omega), if_neg (by omega)]
    simp [h6, h7, h8]
  · intro h1 h2 h3 h4 h5 h6 h7 h8
    simp only [buildSortParameters, h1, h2, h3]
    rw [if_neg (by omega), if_neg (by omega)]
    simp [h6, h7, h8]

/-- Claim C5, witness: the amended theorem applied to a valid ascending
sort on column 0 (`sampleC5w`) and to the throwing index `-1`
(`sampleC5`). -/
theorem C5_amended_witness :
    buildSortParameters sampleC5w = .ok (some [("name", 1)]) ∧
    buildSortParameters sampleC5 = .error () := by
  constructor
  · exact (C5_amended sampleC5w [sCol "name" "true"] ⟨.str "0", .str "asc"⟩ [] 0
      (sCol "name" "true")).2.2.2.2.2.2.2.2.2 rfl rfl rfl (by decide) (by decide) rfl
      (by decide) (by decide)
  · exact (C5_amended sampleC5 [sCol "a" "true"] ⟨.str "-1", .str "asc"⟩ [] (-1)
      (sCol "a" "true")).2.2.2.2.2.2.1 rfl rfl rfl (by decide)

/-- Claim C6: in smart mode with non-empty search text, the compiled
single-field matcher is the smart pattern over the tokenized escaped text;
that pattern matches a subject exactly when every token occurs in it
(case-insensitively, in any order); the tokenizer keeps a double-quoted
run as one token with the quotes stripped, so the specification's example
`"John Doe" Jane` tokenizes to the phrase and the free word, the built
regex source is the lookahead conjunction, and it matches a subject
containing both the phrase and the word regardless of case, but not one
missing `Jane`. -/
theorem C6_smart (p : Params) (cols : List Column) (v f : String) (s : String)
    (hcols : p.columns = .arr cols)
    (hsearch : p.search = some ⟨some v, true⟩)
    (hv : escapeRegex v ≠ "")
    (hfields : getSearchableFields (.arr cols) = .ok [f]) :
    buildFindParameters p
      = .ok (some (setKey (p.find.getD []) f
          (.regex (.smart (smartWords (escapeRegex v)))))) ∧
    RegexVal.matchesB (.smart (smartWords (escapeRegex v))) s
      = (smartWords (escapeRegex v)).all (fun w => substrCIb w s) ∧
    smartWords (escapeRegex "\"John Doe\" Jane") = ["John Doe", "Jane"] ∧
    RegexVal.sourceStr (.smart ["John Doe", "Jane"]) = "^(?=.*?John Doe)(?=.*?Jane).*$" ∧
    RegexVal.matchesB (.smart (smartWords (escapeRegex "\"John Doe\" Jane")))
      "Contract signed by JANE for John DOE" = true ∧
    RegexVal.matchesB (.smart (smartWords (escapeRegex "\"John Doe\" Jane")))
      "John Doe alone" = false := by
  refine ⟨?_, rfl, rfl, rfl, rfl, rfl⟩
  simp [buildFindParameters, buildFindParametersM, hcols, hsearch, hv, hfields, searchRegexOf]

/-- Claim C6, witness: the theorem applied to the specification's example
descriptor `sampleC6`. -/
theorem C6_smart_witness :
    buildFindParameters sampleC6
      = .ok (some [("name", FVal.regex (.smart ["John Doe", "Jane"]))]) ∧
    RegexVal.matchesB (.smart ["John Doe", "Jane"])
      "Contract signed by JANE for John DOE" = true := by
  have h := C6_smart sampleC6 [sCol "name" "true"] "\"John Doe\" Jane" "name"
    "Contract signed by JANE for John DOE" rfl rfl (by decide) rfl
  exact ⟨h.1, h.2.2.2.2.1⟩

/-- Claim C7, counterexample.  Only `draw` is invalid (`"abc"` coerces to
NaN) while `start` and `length` are fine, yet the rejection message still
mentions `start` and `length`: the message is one fixed string listing all
three candidates (`Could be any of draw, start or length`), so it does not
name which parameter is implicated. -/
theorem C7_counterexample :
    runQuery demoStore sampleC7 = .rejected (.errMsg missingParamsMsg) ∧
    jsToNumber sampleC7.draw = none ∧
    jsToNumber sampleC7.start = some 0 ∧
    jsToNumber sampleC7.length = some 10 ∧
    mentionsStr missingParamsMsg "start" = true ∧
    mentionsStr missingParamsMsg "length" = true :=
  ⟨rfl, rfl, rfl, rfl, rfl, rfl⟩

/-- Claim C7, amended: when any of the coerced `draw`, `start`, `length` is
NaN (or undefined or null, which coerce to NaN under the model) and the
filter and sort compilers do not throw, the orchestrator rejects — for
every store, hence before any store access — with a plain Error (no wrapped
cause) whose fixed message names all three of draw, start and length as
possible culprits without identifying which one. -/
theorem C7_amended {Doc Err : Type} (store : StoreModel Doc Err) (p : Params)
    (fOpt post : Option Obj) (sOpt : Option SortObj)
    (hfind : buildFindParametersM p = (.ok fOpt, post))
    (hsort : buildSortParameters p = .ok sOpt)
    (hbad : jsToNumber p.draw = none ∨ jsToNumber p.start = none ∨
      jsToNumber p.length = none) :
    runQuery store p = .rejected (.errMsg missingParamsMsg) ∧
    mentionsStr missingParamsMsg "draw" = true ∧
    mentionsStr missingParamsMsg "start" = true ∧
    mentionsStr missingParamsMsg "length" = true := by
  refine ⟨?_, rfl, rfl, rfl⟩
  rcases hbad with h | h | h
  · simp [runQuery, hfind, hsort, h]
  · cases hd : jsToNumber p.draw <;> simp [runQuery, hfind, hsort, hd, h]
  · cases hd : jsToNumber p.draw <;> cases hst : jsToNumber p.start <;>
      simp [runQuery, hfind, hsort, hd, hst, h]

/-- Claim C7, witness: the amended theorem applied to `sampleC7`. -/
theorem C7_amended_witness :
    runQuery demoStore sampleC7 = .rejected (.errMsg missingParamsMsg) ∧
    mentionsStr missingParamsMsg "draw" = true :=
  ⟨(C7_amended demoStore sampleC7 (some [("name", FVal.regex (.plain "jo"))]) none
      (some [("name", 1)]) rfl rfl (Or.inl rfl)).1,
   (C7_amended demoStore sampleC7 (some [("name", FVal.regex (.plain "jo"))]) none
      (some [("name", 1)]) rfl rfl (Or.inl rfl)).2.1⟩

/-- Claim C8, counterexample.  `find` is present (the empty object) and the
search text is non-empty, so `buildFindParameters` mutates `find` in place;
when `run` later counts `params.find || {}`, that object is already the
compiled filter: under `demoStore` (which counts filter keys) the envelope's
`recordsTotal` is `1`, although the count of the request's original `find`
alone is `0`. -/
theorem C8_counterexample :
    runQuery demoStore sampleC8 = .fulfilled ⟨1, 1, 1, []⟩ ∧
    sampleC8.find = some [] ∧
    demoStore.count [] = .ok 0 :=
  ⟨rfl, rfl, rfl⟩

/-- Claim C8, amended: when the compilers succeed, the numerics are valid
and every store operation succeeds, the envelope echoes the coerced `draw`,
takes `recordsFiltered` from the count under the compiled filter and `data`
from the fetch — but `recordsTotal` is the count of `params.find` as it
stands after filter compilation (the post-mutation object
`buildFindParametersM` reports, or the empty filter when `find` is absent),
which equals the compiled filter whenever `find` was present and a search
constraint was attached. -/
theorem C8_amended {Doc Err : Type} (store : StoreModel Doc Err) (p : Params)
    (f : Obj) (post : Option Obj) (sel : SelectObj) (srt : SortObj)
    (d st len : Int) (t1 t2 : Nat) (docs : List Doc)
    (hfind : buildFindParametersM p = (.ok (some f), post))
    (hsort : buildSortParameters p = .ok (some srt))
    (hsel : buildSelectParameters p = some sel)
    (hd : jsToNumber p.draw = some d)
    (hst : jsToNumber p.start = some st)
    (hlen : jsToNumber p.length = some len)
    (hc1 : store.count (post.getD []) = .ok t1)
    (hc2 : store.count f = .ok t2)
    (hfetch : store.findDocs f sel len st srt (popArg p) = .ok docs) :
    runQuery store p = .fulfilled ⟨d, t1, t2, docs⟩ := by
  simp [runQuery, hfind, hsort, hsel, hd, hst, hlen, hc1, hc2, hfetch]

/-- Claim C8, witness: the amended theorem applied to `sampleC8w`, whose
`find` is absent, so `recordsTotal` is the count of the empty filter. -/
theorem C8_amended_witness :
    runQuery demoStore sampleC8w = .fulfilled ⟨1, 0, 1, []⟩ :=
  C8_amended demoStore sampleC8w [("name", FVal.regex (.plain "jo"))] none [("name", 1)]
    [("name", 1)] 1 0 10 0 1 [] rfl rfl rfl rfl rfl rfl rfl rfl rfl

/-- Claim C9, counterexample.  A column whose `searchable` is the string
`"1"` is not boolean-like, yet extraction does not error: `JSON.parse("1")`
yields the truthy number `1` and the column is kept. -/
theorem C9_counterexample :
    getSearchableFields (.arr sampleC9cols) = .ok ["a"] ∧
    booleanLikeB (.str "1") = false :=
  ⟨rfl, rfl⟩

/-- Claim C9, amended: the extractor returns, in order, the `data` keys of
exactly the columns whose `searchable` parses (as JSON) to a truthy value —
boolean-like flags behave as the booleans they encode, but any other
parseable value (such as `"1"`) is also accepted by truthiness; only a
`searchable` that fails JSON parsing raises an error, which aborts the
extraction and propagates: the filter compiler throws, and the whole `run`
call throws before any store access. -/
theorem C9_amended {Doc Err : Type} (store : StoreModel Doc Err) (p : Params)
    (cols : List Column) (c : Column) (v : String) (sm : Bool) :
    ((∀ a ∈ cols, isOkB (jsonParseLite (jsToString a.searchable)) = true) →
      getSearchableFieldsList cols = .ok ((cols.filter truthyFlag).map dataStr)) ∧
    (c ∈ cols → jsonParseLite (jsToString c.searchable) = .error () →
      getSearchableFieldsList cols = .error ()) ∧
    (p.columns = .arr cols → p.search = some ⟨some v, sm⟩ → escapeRegex v ≠ "" →
      getSearchableFieldsList cols = .error () →
      buildFindParameters p = .error () ∧ runQuery store p = .thrown) := by
  refine ⟨?_, ?_, ?_⟩
  · intro hall
    induction cols with
    | nil => simp [getSearchableFieldsList]
    | cons a rest ih =>
      obtain ⟨j, hj⟩ : ∃ j, jsonParseLite (jsToString a.searchable) = .ok j := by
        have := hall a (by simp)
        cases hpj : jsonParseLite (jsToString a.searchable) with
        | ok j => exact ⟨j, rfl⟩
        | error e => rw [hpj] at this; simp [isOkB] at this
      have hrest := ih (fun b hb => hall b (by simp [hb]))
      cases hb : jsonTruthy j <;>
        simp [getSearchableFieldsList, searchableFlag, hj, hrest, List.filter_cons,
          truthyFlag, hb]
  · intro hmem herr
    induction cols with
    | nil => simp at hmem
    | cons a rest ih =>
      rcases List.mem_cons.mp hmem with h | h
      · subst h
        simp [getSearchableFieldsList, searchableFlag, herr]
      · cases hfa : searchableFlag a with
        | error e => simp [getSearchableFieldsList, hfa]
        | ok b => simp [getSearchableFieldsList, hfa, ih h]
  · intro hcols hsearch hv herr
    have hm : buildFindParametersM p = (.error (), p.find) := by
      simp [buildFindParametersM, hcols, hsearch, hv, getSearchableFields, herr]
    constructor
    · simp [buildFindParameters, hm]
    · simp [runQuery, hm]

/-- Claim C9, witness: the amended theorem applied to the truthy non-boolean
flag `"1"` and to the unparseable flag `"abc"`. -/
theorem C9_amended_witness :
    getSearchableFieldsList sampleC9cols = .ok ["a"] ∧
    getSearchableFieldsList [⟨some "a", .str "abc", .str "true"⟩] = .error () ∧
    runQuery demoStore sampleC9bad = .thrown := by
  have h1 := (C9_amended demoStore sampleC9bad sampleC9cols
    ⟨some "a", .str "1", .str "true"⟩ "x" false).1 (by decide)
  have h2 := (C9_amended demoStore sampleC9bad [⟨some "a", .str "abc", .str "true"⟩]
    ⟨some "a", .str "abc", .str "true"⟩ "x" false).2.1 (by simp) rfl
  have h3 := ((C9_amended demoStore sampleC9bad [⟨some "a", .str "abc", .str "true"⟩]
    ⟨some "a", .str "abc", .str "true"⟩ "x" false).2.2 rfl rfl (by decide) h2).2
  exact ⟨h1, h2, h3⟩

/-- Claim C10: with exactly one searchable column whose `data` key already
occurs in the caller's `find`, the assignment of source line 97 overwrites
that entry: the compiled filter's matcher for the field is the search
pattern, whatever constraint the caller had there. -/
theorem C10_overwrite (p : Params) (cols : List Column) (v f : String) (sm : Bool)
    (b : Obj) (w : FVal)
    (hcols : p.columns = .arr cols)
    (hsearch : p.search = some ⟨some v, sm⟩)
    (hfind : p.find = some b)
    (hv : escapeRegex v ≠ "")
    (hfields : getSearchableFields (.arr cols) = .ok [f])
    (_hkey : getKey b f = some w) :
    buildFindParameters p
      = .ok (some (setKey b f (.regex (searchRegexOf sm (escapeRegex v))))) ∧
    getKey (setKey b f (.regex (searchRegexOf sm (escapeRegex v)))) f
      = some (.regex (searchRegexOf sm (escapeRegex v))) := by
  refine ⟨?_, getKey_setKey _ _ _⟩
  simp [buildFindParameters, buildFindParametersM, hcols, hsearch, hfind, hv, hfields]

/-- Claim C10, witness: the theorem applied to `sampleC10`, whose base
filter constrains `name` with a scalar matcher that the compiled filter no
longer contains. -/
theorem C10_overwrite_witness :
    buildFindParameters sampleC10 = .ok (some [("name", FVal.regex (.plain "jo"))]) ∧
    getKey [("name", FVal.regex (.plain "jo"))] "name" = some (FVal.regex (.plain "jo")) := by
  have h := C10_overwrite sampleC10 [sCol "name" "true"] "jo" "name" false
    [("name", .prim (.str "exact"))] (.prim (.str "exact")) rfl rfl rfl (by decide) rfl rfl
  exact ⟨h.1, h.2⟩

end DTQ
